import Mathlib

/-!
Verification development for the CentipedeCPP simulation core
(`src/Centipede/SourceCode/BusinessLogic/GameLogic.hpp`).

The definitions below are a shallow embedding of the C++ code: each `def`
carries a comment naming the source function it translates. Components whose
implementation is not part of the repository snapshot (the `CentipedeHead`
collision routine, `SaveState` accessors, `Starship`/`MushroomMap` internals)
are modelled from the specification text and marked as such in their doc
comments. C++ `int` values are modelled as `Int` (with `Int.tdiv`, truncation
toward zero, for `/`) and non-negative counters as `Nat`.
-/

/-- A playfield cell, identified by line and column. -/
structure Position where
  line : Nat
  column : Nat
deriving DecidableEq, Repr

/-- A bullet (GameObjects/Bullet): only its position matters for collisions. -/
structure Bullet where
  pos : Position
deriving DecidableEq, Repr

/-- A centipede chain, as the ordered list of its segment positions,
head first (index 0).  This realises the spec's CentipedeChain data model;
the C++ code represents the same sequence as a `CentipedeHead` object with a
linked list of `CentipedeBody` parts behind it. -/
abbrev Chain := List Position

/-- The hit classification returned by `CentipedeHead::collide`
(used in `collideBulletsCentipedes`). -/
inductive CentipedeHit where
  | noHit
  | tailHit
  | headHit
deriving DecidableEq, Repr

/-- `ScoreType` enum from GameLogic.hpp lines 20-25. -/
inductive ScoreType where
  | centipedeHit
  | mushroomKill
  | roundEnd
deriving DecidableEq, Repr

/-- `CentipedeMovingDirection` (left/right), used by `startNextRound`. -/
inductive CentipedeMovingDirection where
  | cLeft
  | cRight
deriving DecidableEq, Repr

/-- Index of the first chain segment (head-to-tail) occupying the bullet's
cell, part of the model of `CentipedeHead::collide`. -/
def firstHitIndex (c : Chain) (b : Bullet) : Option Nat :=
  c.findIdx? (fun s => decide (s = b.pos))

/-- Modelled from the spec: `CentipedeHead::collide` is not in the
repository snapshot (only its caller `collideBulletsCentipedes` is).
Per spec §4.4, testing a bullet against a chain's segments head-to-tail:
no segment at the bullet's cell is `noHit` and leaves the chain unchanged;
the head (index 0) at the bullet's cell is `headHit`; a deeper segment at
index `d > 0` is `tailHit`, the chain keeps segments `[0, d-1]`, and the
segments behind the struck one, `[d+1, L-1]`, are returned as a split-of-tail
chain when non-empty (`d < L-1`), otherwise no split is returned. -/
def collide (c : Chain) (b : Bullet) : CentipedeHit × Chain × Option Chain :=
  match firstHitIndex c b with
  | none => (CentipedeHit.noHit, c, none)
  | some 0 => (CentipedeHit.headHit, c, none)
  | some d => (CentipedeHit.tailHit, c.take d,
      if d + 1 < c.length then some (c.drop (d + 1)) else none)

/-- Result of scanning one chain against the bullet list
(the inner `while` loop of `collideBulletsCentipedes`, lines 467-506):
the bullets that survived the scan, the chain's final state, whether the
head was struck, the split-of-tail chains produced (in production order,
each later pushed onto the chain collection), and the number of
centipede-hit score events awarded. -/
structure ScanResult where
  bullets : List Bullet
  chain : Chain
  headHit : Bool
  splits : List Chain
  hits : Nat
deriving DecidableEq, Repr

/-- Inner bullet loop of `collideBulletsCentipedes` (lines 467-506), for one
chain: test each bullet in order; on `noHit` keep the bullet and continue; on
`tailHit` erase the bullet, award a centipede-hit score event, record the
split of tail (if any) for the chain collection, and continue with the
shortened chain; on `headHit` erase the bullet, award a centipede-hit score
event, record the split (if any, lines 486-494 run before the hit-kind test),
set the head-hit indicator and stop scanning bullets. -/
def bulletScan (c : Chain) : List Bullet → ScanResult
  | [] => { bullets := [], chain := c, headHit := false, splits := [], hits := 0 }
  | b :: rest =>
    match collide c b with
    | (CentipedeHit.noHit, c1, _) =>
      let r := bulletScan c1 rest
      { r with bullets := b :: r.bullets }
    | (CentipedeHit.tailHit, c1, split) =>
      let r := bulletScan c1 rest
      { r with splits := split.toList ++ r.splits, hits := r.hits + 1 }
    | (CentipedeHit.headHit, c1, split) =>
      { bullets := rest, chain := c1, headHit := true,
        splits := split.toList, hits := 1 }

theorem bulletScan_bullets_sublist (c : Chain) (bs : List Bullet) :
    (bulletScan c bs).bullets.Sublist bs := by
  induction bs generalizing c with
  | nil => simp [bulletScan]
  | cons b rest ih =>
    simp only [bulletScan]
    rcases hc : collide c b with ⟨hit, c1, split⟩
    cases hit with
    | noHit => exact List.Sublist.cons₂ b (ih c1)
    | tailHit => exact List.Sublist.cons b (ih c1)
    | headHit => exact List.sublist_cons_self b rest

theorem bulletScan_headHit_lt (c : Chain) (bs : List Bullet)
    (h : (bulletScan c bs).headHit = true) :
    (bulletScan c bs).bullets.length < bs.length := by
  induction bs generalizing c with
  | nil => simp [bulletScan] at h
  | cons b rest ih =>
    simp only [bulletScan] at h ⊢
    rcases hc : collide c b with ⟨hit, c1, split⟩
    rw [hc] at h
    cases hit with
    | noHit =>
      dsimp only at h ⊢
      have := ih c1 h
      simp only [List.length_cons]
      omega
    | tailHit =>
      dsimp only at h ⊢
      have := (bulletScan_bullets_sublist c1 rest).length_le
      simp only [List.length_cons]
      omega
    | headHit => simp

theorem bulletScan_splits_bullets_le (c : Chain) (bs : List Bullet) :
    (bulletScan c bs).splits.length + (bulletScan c bs).bullets.length ≤ bs.length := by
  induction bs generalizing c with
  | nil => simp [bulletScan]
  | cons b rest ih =>
    simp only [bulletScan]
    rcases hc : collide c b with ⟨hit, c1, split⟩
    cases hit with
    | noHit =>
      dsimp only
      have := ih c1
      simp only [List.length_cons]
      omega
    | tailHit =>
      dsimp only
      have := ih c1
      have hs : split.toList.length ≤ 1 := by cases split <;> simp
      simp only [List.length_append, List.length_cons]
      omega
    | headHit =>
      dsimp only
      have hs : split.toList.length ≤ 1 := by cases split <;> simp
      simp only [List.length_cons]
      omega

/-- Result of one whole `collideBulletsCentipedes` pass: final chain
collection, surviving bullets, total centipede-hit score events, and a trace
recording, for each chain tested by the outer loop, the chain's state and the
bullet list it was tested against at that moment. -/
structure PassResult where
  centipedes : List Chain
  bullets : List Bullet
  hits : Nat
  trace : List (Chain × List Bullet)
deriving DecidableEq, Repr

/-- Outer chain loop of `collideBulletsCentipedes` (lines 460-517), modelled
with an explicit index: the C++ `while(centipede_ptr < centipedes_ptr->end())`
re-reads the collection's current end, so chains pushed during the pass are
iterated too.  After the inner bullet scan of the chain at index `i`, the
split-of-tail chains are pushed onto the collection (lines 486-494, which
recreate the iterator after `push_back`); a head hit erases the chain at `i`
and continues at the same index (lines 508-513), otherwise the index
advances (line 516). -/
def chainScan (i : Nat) (cs : List Chain) (bs : List Bullet) : PassResult :=
  if h : i < cs.length then
    let c := cs[i]
    let r := bulletScan c bs
    if hh : r.headHit then
      let q := chainScan i (cs.eraseIdx i ++ r.splits) r.bullets
      { centipedes := q.centipedes, bullets := q.bullets,
        hits := r.hits + q.hits, trace := (c, bs) :: q.trace }
    else
      let q := chainScan (i + 1) (cs.set i r.chain ++ r.splits) r.bullets
      { centipedes := q.centipedes, bullets := q.bullets,
        hits := r.hits + q.hits, trace := (c, bs) :: q.trace }
  else
    { centipedes := cs, bullets := bs, hits := 0, trace := [] }
termination_by bs.length + (cs.length + 1 - i)
decreasing_by
  · have h1 := bulletScan_splits_bullets_le cs[i] bs
    have h2 := bulletScan_headHit_lt cs[i] bs hh
    have h3 : (cs.eraseIdx i).length = cs.length - 1 :=
      List.length_eraseIdx_of_lt h
    simp only [List.length_append, h3]
    omega
  · have h1 := bulletScan_splits_bullets_le cs[i] bs
    simp only [List.length_append, List.length_set]
    omega

/-- `collideBulletsCentipedes` (lines 456-518): scan every chain of the
collection, in order, against the bullet list. -/
def collideBulletsCentipedes (cs : List Chain) (bs : List Bullet) : PassResult :=
  chainScan 0 cs bs

/-- The settings read by GameLogic.hpp, one field per `CentipedeSettings`
getter it calls.  Settings are immutable for the lifetime of a game
(spec §3); C++ `int` is modelled as `Int`. -/
structure CentipedeSettings where
  initialCentipedeModuloGametickSlowdown : Int
  centipedeSpeedIncrementRoundModuloSlowdown : Int
  centipedeSpeedIncrementAmount : Int
  initialCentipedeSize : Int
  centipedeSizeIncrementRoundModuloSlowdown : Int
  centipedeSizeIncrementAmount : Int
  pointsForCentipedeHit : Int
  pointsForMushroomKill : Int
  pointsForRoundEnd : Int
  centipedeSpawnLine : Nat
  centipedeSpawnColumn : Nat
  initialPlayerHealth : Int
deriving DecidableEq, Repr

/-- The game-lifecycle state mutated by GameLogic: the `SaveState` fields
used by the embedded operations plus GameLogic's own `hasDiedInRound`
member.  `hasDiedInRound` is an `Option Bool`: `none` models the member
never having been assigned (the C++ constructor, lines 566-578, assigns
every other member but leaves this `bool` uninitialized; the only assignment
in the file is `hasDiedInRound = true` inside `loseLive`, line 548). -/
structure GameLifeState where
  currentRound : Int
  currentCentipedeModuloGametickSlowdown : Int
  score : Int
  lives : Int
  centipedes : List Chain
  hasDiedInRound : Option Bool
deriving DecidableEq, Repr

/-- `increaseScore` (lines 330-352): add the settings-configured delta for
the event kind to the score. -/
def increaseScore (settings : CentipedeSettings) (t : ScoreType)
    (s : GameLifeState) : GameLifeState :=
  match t with
  | ScoreType.centipedeHit => { s with score := s.score + settings.pointsForCentipedeHit }
  | ScoreType.mushroomKill => { s with score := s.score + settings.pointsForMushroomKill }
  | ScoreType.roundEnd => { s with score := s.score + settings.pointsForRoundEnd }

/-- `loseLive` (lines 543-551): decrease lives (the `SaveState::loseLive`
body is not in the snapshot; modelled from the spec: "decrement lives by
one"), set `hasDiedInRound` to true, and clear the chain collection. -/
def loseLive (s : GameLifeState) : GameLifeState :=
  { s with lives := s.lives - 1, hasDiedInRound := some true, centipedes := [] }

/-- Modelled from the spec: `CentipedeHead::isAtPosition` is not in the
repository snapshot.  Per spec §4.4 a chain collides with the starship when
its head occupies the starship's cell. -/
def isAtPosition (c : Chain) (p : Position) : Bool :=
  c.head? = some p

/-- Loop body of `collidePlayerCentipedes` (lines 523-538) over the chains
present when the loop starts: for each chain at the starship's position,
fire a life-loss event (`loseLive`).  The returned `Nat` counts the
life-loss events fired.  The C++ range-for iterates (by value) the chains
present at loop entry even though the first `loseLive` clears the live
vector, so the loop is modelled over that entry snapshot. -/
def collidePlayerCentipedesGo (p : Position) :
    List Chain → GameLifeState → GameLifeState × Nat
  | [], s => (s, 0)
  | c :: rest, s =>
    if isAtPosition c p then
      let r := collidePlayerCentipedesGo p rest (loseLive s)
      (r.1, r.2 + 1)
    else
      collidePlayerCentipedesGo p rest s

/-- `collidePlayerCentipedes` (lines 523-538). -/
def collidePlayerCentipedes (p : Position) (s : GameLifeState) :
    GameLifeState × Nat :=
  collidePlayerCentipedesGo p s.centipedes s

/-- `calculateCentipedeSlowdown` (lines 296-302).  C++ `int` division
truncates toward zero, i.e. `Int.tdiv`. -/
def calculateCentipedeSlowdown (settings : CentipedeSettings)
    (currentRound : Int) : Int :=
  settings.initialCentipedeModuloGametickSlowdown -
    (currentRound.tdiv settings.centipedeSpeedIncrementRoundModuloSlowdown) *
      settings.centipedeSpeedIncrementAmount

/-- `calculateCentipedeSize` (lines 304-310). -/
def calculateCentipedeSize (settings : CentipedeSettings)
    (currentRound : Int) : Int :=
  settings.initialCentipedeSize +
    (currentRound.tdiv settings.centipedeSizeIncrementRoundModuloSlowdown) *
      settings.centipedeSizeIncrementAmount

/-- Modelled from the spec: the `CentipedeHead(line, column, direction,
settings, size)` constructor is not in the repository snapshot.  Per spec
§4.6 a new chain of the given size is spawned at the configured spawn cell
(the moving direction does not affect the segment positions at spawn). -/
def spawnChain (line column : Nat) (size : Int) : Chain :=
  List.replicate size.toNat (Position.mk line column)

/-- `startNextRound` (lines 273-294): increment the round counter
(`SaveState::incrementCurrentRound`, modelled from the spec: "increment
round counter"), recompute and store the centipede-path slowdown, compute
the new chain size, and push one new chain at the configured spawn cell.
The randomly rolled moving direction (lines 312-321) is passed in as a
parameter; no assignment to `hasDiedInRound` occurs in the source. -/
def startNextRound (settings : CentipedeSettings)
    (_dir : CentipedeMovingDirection) (s : GameLifeState) : GameLifeState :=
  { s with
    currentRound := s.currentRound + 1
    currentCentipedeModuloGametickSlowdown :=
      calculateCentipedeSlowdown settings (s.currentRound + 1)
    centipedes := s.centipedes ++
      [spawnChain settings.centipedeSpawnLine settings.centipedeSpawnColumn
        (calculateCentipedeSize settings (s.currentRound + 1))] }

/-- Round-end branch of `gameLoop` (lines 77-86): if `hasDiedInRound` reads
false, award a round-end score event; if it reads true, only the post-death
delay happens (no state change modelled).  When the member was never
assigned (`none`) the C++ read is of an uninitialized `bool`, so the
outcome is indeterminate: modelled as `none`. -/
def roundEndStep (settings : CentipedeSettings) (s : GameLifeState) :
    Option GameLifeState :=
  match s.hasDiedInRound with
  | none => none
  | some true => some s
  | some false => some (increaseScore settings ScoreType.roundEnd s)

/-- `startNew` (lines 587-610): fresh state with round 0, score 0, configured
initial lives and slowdown, and no chains.  `hasDiedInRound` is a `GameLogic`
member, not part of the new `SaveState`; the constructor (lines 566-578)
never assigns it, and `startNew`/`continueGame` do not either, so a fresh
game still carries the unassigned value (`none`). -/
def startNew (settings : CentipedeSettings) : GameLifeState :=
  { currentRound := 0
    currentCentipedeModuloGametickSlowdown :=
      settings.initialCentipedeModuloGametickSlowdown
    score := 0
    lives := settings.initialPlayerHealth
    centipedes := []
    hasDiedInRound := none }

/-- State of the `gameClock_thread_ptr` member: whether a clock thread
object is currently held (non-null). -/
structure GameLogicClock where
  gameClockThreadRunning : Bool
deriving DecidableEq, Repr

/-- `startGameClock` (lines 127-137): if the clock thread pointer is already
non-null, throw `std::logic_error("Game Clock already running.")` — the
throw happens before any mutation, so the state is returned unchanged with
the error; otherwise spawn the background clock thread (the member becomes
non-null) and return the fresh `Signal` (modelled as `Unit`). -/
def startGameClock (s : GameLogicClock) (_gameTickLength : Int) :
    GameLogicClock × Except String Unit :=
  if s.gameClockThreadRunning then
    (s, Except.error "Game Clock already running.")
  else
    ({ gameClockThreadRunning := true }, Except.ok ())

/-- `executePathForGametick` (lines 185-188): a path with the given slowdown
executes on the current game tick iff `gameTick % moduloSlowdown == 0`.
Ticks count up from 0 and are modelled as `Nat`. -/
def executePathForGametick (gameTick moduloSlowdown : Nat) : Bool :=
  gameTick % moduloSlowdown == 0

/-- Guard of `handleGlobalCollisions` (lines 239-259): the collision pass is
skipped only when neither the player path nor the centipede path executed
this tick; it runs otherwise. -/
def handleGlobalCollisionsExecutes (gameTick starshipSlowdown centipedeSlowdown : Nat) : Bool :=
  !(!executePathForGametick gameTick starshipSlowdown &&
    !executePathForGametick gameTick centipedeSlowdown)

/-- The observable steps of one `gameLoop` tick (lines 66-71 and the bodies
of `handlePlayerControlledEntities`, `handleCentipedes`,
`handleGlobalCollisions`). -/
inductive TickEvent where
  | spawnBulletIfNecessary
  | moveBullets
  | collideBulletsMushroomsEvent
  | moveStarshipIfNecessary
  | moveCentipedesEvent
  | collideBulletsCentipedesEvent
  | collidePlayerCentipedesEvent
  | printGameEvent
deriving DecidableEq, Repr

/-- Sequence of steps executed by one tick of the inner `gameLoop` loop
(lines 66-71): `handlePlayerControlledEntities` (lines 198-215) runs
spawn-bullet, move-bullets, collide-bullets-mushrooms, move-starship when
the player path is due; `handleCentipedes` (lines 221-234) moves centipedes
when the centipede path is due; `handleGlobalCollisions` (lines 239-259)
runs the two global collision checks when either path is due; `printGame`
always runs last. -/
def gameTickTrace (gameTick starshipSlowdown centipedeSlowdown : Nat) : List TickEvent :=
  (if executePathForGametick gameTick starshipSlowdown then
    [TickEvent.spawnBulletIfNecessary, TickEvent.moveBullets,
     TickEvent.collideBulletsMushroomsEvent, TickEvent.moveStarshipIfNecessary]
  else []) ++
  (if executePathForGametick gameTick centipedeSlowdown then
    [TickEvent.moveCentipedesEvent]
  else []) ++
  (if handleGlobalCollisionsExecutes gameTick starshipSlowdown centipedeSlowdown then
    [TickEvent.collideBulletsCentipedesEvent, TickEvent.collidePlayerCentipedesEvent]
  else []) ++
  [TickEvent.printGameEvent]

/-- Movement steps in the sense of spec §5: bullets, starship, centipedes. -/
def isMovement : TickEvent → Bool
  | TickEvent.moveBullets => true
  | TickEvent.moveStarshipIfNecessary => true
  | TickEvent.moveCentipedesEvent => true
  | _ => false

/-- Collision-evaluation steps: bullet-mushroom, bullet-centipede,
centipede-starship. -/
def isCollisionEvaluation : TickEvent → Bool
  | TickEvent.collideBulletsMushroomsEvent => true
  | TickEvent.collideBulletsCentipedesEvent => true
  | TickEvent.collidePlayerCentipedesEvent => true
  | _ => false

/-- The collision checks performed by `handleGlobalCollisions`. -/
def isGlobalCollisionEvaluation : TickEvent → Bool
  | TickEvent.collideBulletsCentipedesEvent => true
  | TickEvent.collidePlayerCentipedesEvent => true
  | _ => false

theorem getElem_eraseIdx_ge (l : List Chain) (i j : Nat) (hij : i ≤ j)
    (hj : j + 1 < l.length) (hb : j < (l.eraseIdx i).length) :
    (l.eraseIdx i)[j] = l[j + 1] := by
  have hi : i < l.length := by omega
  have htl : (List.take i l).length = i := by
    simp only [List.length_take]
    omega
  have hb2 : j < (List.take i l ++ List.drop (i + 1) l).length := by
    rw [← List.eraseIdx_eq_take_drop_succ]
    exact hb
  have h1 : (l.eraseIdx i)[j] =
      (List.take i l ++ List.drop (i + 1) l)[j] := by
    simp only [List.eraseIdx_eq_take_drop_succ]
  rw [h1, List.getElem_append_right (by omega), List.getElem_drop]
  congr 1
  omega

theorem chainScan_visits (i : Nat) (cs : List Chain) (bs : List Bullet) :
    ∀ j, i ≤ j → ∀ hj : j < cs.length, ∃ bs1,
      (cs[j], bs1) ∈ (chainScan i cs bs).trace ∧ bs1.Sublist bs := by
  induction i, cs, bs using chainScan.induct with
  | case1 i cs bs h c r hh ih =>
    intro j hij hj
    rw [chainScan, dif_pos h, dif_pos hh]
    dsimp only
    simp only [List.mem_cons]
    rcases Nat.eq_or_lt_of_le hij with heq | hlt
    · subst heq
      exact ⟨bs, Or.inl rfl, List.Sublist.refl bs⟩
    · have hj1 : j - 1 < (cs.eraseIdx i ++ r.splits).length := by
        have := List.length_eraseIdx_of_lt h
        simp only [List.length_append, this]
        omega
      obtain ⟨bs1, hmem, hsub⟩ := ih (j - 1) (by omega) hj1
      refine ⟨bs1, Or.inr ?_, hsub.trans (bulletScan_bullets_sublist cs[i] bs)⟩
      have he : (cs.eraseIdx i ++ r.splits)[j - 1] = cs[j] := by
        have hlen : j - 1 < (cs.eraseIdx i).length := by
          have := List.length_eraseIdx_of_lt h
          omega
        rw [List.getElem_append_left hlen]
        have h2 := getElem_eraseIdx_ge cs i (j - 1) (by omega) (by omega) hlen
        rw [h2]
        congr 1
        omega
      rwa [he] at hmem
  | case2 i cs bs h c r hh ih =>
    intro j hij hj
    rw [chainScan, dif_pos h, dif_neg hh]
    dsimp only
    simp only [List.mem_cons]
    rcases Nat.eq_or_lt_of_le hij with heq | hlt
    · subst heq
      exact ⟨bs, Or.inl rfl, List.Sublist.refl bs⟩
    · have hj1 : j < (cs.set i r.chain ++ r.splits).length := by
        simp only [List.length_append, List.length_set]
        omega
      obtain ⟨bs1, hmem, hsub⟩ := ih j (by omega) hj1
      refine ⟨bs1, Or.inr ?_, hsub.trans (bulletScan_bullets_sublist cs[i] bs)⟩
      have he : (cs.set i r.chain ++ r.splits)[j] = cs[j] := by
        have hlen : j < (cs.set i r.chain).length := by
          simp only [List.length_set]; omega
        rw [List.getElem_append_left hlen]
        exact List.getElem_set_ne (by omega) _
      rwa [he] at hmem
  | case3 i cs bs h =>
    intro j hij hj
    omega

theorem chainScan_stop (i : Nat) (cs : List Chain) (bs : List Bullet)
    (h : ¬ i < cs.length) :
    chainScan i cs bs = { centipedes := cs, bullets := bs, hits := 0, trace := [] } := by
  rw [chainScan, dif_neg h]

theorem collide_tail (c : Chain) (b : Bullet) (d : Nat)
    (hfind : firstHitIndex c b = some d) (h0 : 0 < d) :
    collide c b = (CentipedeHit.tailHit, c.take d,
      if d + 1 < c.length then some (c.drop (d + 1)) else none) := by
  obtain ⟨k, rfl⟩ : ∃ k, d = k + 1 := ⟨d - 1, by omega⟩
  rw [collide, hfind]
  rfl

theorem collide_head (c : Chain) (b : Bullet)
    (hfind : firstHitIndex c b = some 0) :
    collide c b = (CentipedeHit.headHit, c, none) := by
  rw [collide, hfind]

/-- C1: in the bullet-vs-centipede scan, a tail hit on a chain of length `L`
at depth `d` (`0 < d`) keeps only segments `[0, d-1]` (removing `[d, L-1]`),
consumes the striking bullet, awards exactly one centipede-hit score event,
produces exactly one new independently-scanned chain `[d+1, L-1]` of length
`L-1-d` when `d < L-1` and none when `d = L-1`, appends it to the chain
collection, and keeps testing the shortened chain against the remaining
bullets of the same pass. -/
theorem c1 (c : Chain) (b : Bullet) (rest : List Bullet) (d : Nat)
    (hfind : firstHitIndex c b = some d) (h0 : 0 < d) (hd : d < c.length) :
    bulletScan c (b :: rest) =
      { bullets := (bulletScan (c.take d) rest).bullets
        chain := (bulletScan (c.take d) rest).chain
        headHit := (bulletScan (c.take d) rest).headHit
        splits := (if d + 1 < c.length then [c.drop (d + 1)] else []) ++
          (bulletScan (c.take d) rest).splits
        hits := (bulletScan (c.take d) rest).hits + 1 } ∧
    (c.take d).length = d ∧
    (c.drop (d + 1)).length = c.length - 1 - d ∧
    chainScan 0 [c] [b] =
      { centipedes := c.take d :: (if d + 1 < c.length then [c.drop (d + 1)] else [])
        bullets := []
        hits := 1
        trace := (c, [b]) ::
          (if d + 1 < c.length then [(c.drop (d + 1), ([] : List Bullet))] else []) } := by
  have hcollide := collide_tail c b d hfind h0
  have htoList : (if d + 1 < c.length then some (c.drop (d + 1)) else none).toList =
      if d + 1 < c.length then [c.drop (d + 1)] else [] := by
    by_cases hsplit : d + 1 < c.length <;> simp [hsplit]
  refine ⟨?_, ?_, ?_, ?_⟩
  · simp only [bulletScan]
    rw [hcollide]
    dsimp only
    rw [htoList]
  · simp only [List.length_take]
    omega
  · simp only [List.length_drop]
    omega
  · have hscan : bulletScan c [b] =
        { bullets := [], chain := c.take d, headHit := false,
          splits := if d + 1 < c.length then [c.drop (d + 1)] else [], hits := 1 } := by
      simp only [bulletScan]
      rw [hcollide]
      dsimp only
      rw [htoList]
      simp [bulletScan]
    rw [chainScan, dif_pos (by simp : (0:Nat) < [c].length)]
    simp only [List.getElem_cons_zero]
    rw [hscan]
    rw [dif_neg (by simp)]
    dsimp only
    by_cases hsplit : d + 1 < c.length
    · simp only [hsplit, if_true]
      rw [chainScan, dif_pos (by simp : (1:Nat) < ([c].set 0 (c.take d) ++ [c.drop (d+1)]).length)]
      simp only [List.set_cons_zero, List.cons_append, List.nil_append,
        List.getElem_cons_succ, List.getElem_cons_zero]
      rw [show bulletScan (c.drop (d+1)) [] =
        { bullets := [], chain := c.drop (d+1), headHit := false, splits := [], hits := 0 } from rfl]
      rw [dif_neg (by simp)]
      dsimp only
      rw [chainScan_stop 2 _ [] (by simp)]
      simp
    · simp only [hsplit, if_false]
      rw [chainScan_stop 1 _ [] (by simp)]
      simp

/-- C2: in the bullet-vs-centipede scan, a head hit consumes the striking
bullet, awards one centipede-hit score event, removes the whole chain from
the collection unconditionally, stops testing further bullets against that
chain (here after a first bullet already split it), and the split appended
earlier in the same bullet scan stays in the collection. -/
theorem c2 (c : Chain) (b1 b2 : Bullet) (rest : List Bullet) (d : Nat)
    (h1 : firstHitIndex c b1 = some d) (h0 : 0 < d) (hsplit : d + 1 < c.length)
    (h2 : firstHitIndex (c.take d) b2 = some 0) :
    bulletScan c (b1 :: b2 :: rest) =
      { bullets := rest, chain := c.take d, headHit := true,
        splits := [c.drop (d + 1)], hits := 2 } ∧
    chainScan 0 [c] [b1, b2] =
      { centipedes := [c.drop (d + 1)]
        bullets := []
        hits := 2
        trace := [(c, [b1, b2]), (c.drop (d + 1), ([] : List Bullet))] } := by
  have hcollide1 := collide_tail c b1 d h1 h0
  have hcollide2 := collide_head (c.take d) b2 h2
  have hinner : ∀ tl : List Bullet, bulletScan c (b1 :: b2 :: tl) =
      { bullets := tl, chain := c.take d, headHit := true,
        splits := [c.drop (d + 1)], hits := 2 } := by
    intro tl
    simp only [bulletScan]
    rw [hcollide1]
    dsimp only
    rw [hcollide2]
    simp [hsplit]
  refine ⟨hinner rest, ?_⟩
  rw [chainScan, dif_pos (by simp : (0:Nat) < [c].length)]
  simp only [List.getElem_cons_zero]
  rw [show ([b1, b2] : List Bullet) = b1 :: b2 :: [] from rfl, hinner []]
  rw [dif_pos rfl]
  dsimp only
  simp only [List.eraseIdx_cons_zero, List.nil_append]
  rw [chainScan, dif_pos (by simp : (0:Nat) < [c.drop (d+1)].length)]
  simp only [List.getElem_cons_zero]
  rw [show bulletScan (c.drop (d+1)) [] =
    { bullets := [], chain := c.drop (d+1), headHit := false, splits := [], hits := 0 } from rfl]
  rw [dif_neg (by simp)]
  dsimp only
  rw [chainScan_stop 1 _ [] (by simp)]
  simp

/-- C9: during a single `collideBulletsCentipedes` pass, a chain appended to
the collection by a tail-hit split of the chain at index `i` is itself
reached by the outer chain scan later in the same pass and tested against
the bullets still remaining at that point (a sub-list of the bullets the
pass holds when reaching index `i`). -/
theorem c9 (i : Nat) (cs : List Chain) (bs : List Bullet) (h : i < cs.length)
    (s : Chain) (hs : s ∈ (bulletScan cs[i] bs).splits) :
    ∃ bs1, (s, bs1) ∈ (chainScan i cs bs).trace ∧ bs1.Sublist bs := by
  obtain ⟨k, hk, hks⟩ := List.mem_iff_getElem.mp hs
  by_cases hh : (bulletScan cs[i] bs).headHit = true
  · rw [chainScan, dif_pos h, dif_pos hh]
    dsimp only
    have hlen : (cs.eraseIdx i).length = cs.length - 1 := List.length_eraseIdx_of_lt h
    have hj : (cs.eraseIdx i).length + k < (cs.eraseIdx i ++ (bulletScan cs[i] bs).splits).length := by
      simp only [List.length_append]
      omega
    obtain ⟨bs1, hmem, hsub⟩ := chainScan_visits i
      (cs.eraseIdx i ++ (bulletScan cs[i] bs).splits) (bulletScan cs[i] bs).bullets
      ((cs.eraseIdx i).length + k) (by omega) hj
    have he : (cs.eraseIdx i ++ (bulletScan cs[i] bs).splits)[(cs.eraseIdx i).length + k] = s := by
      rw [List.getElem_append_right (by omega)]
      simpa using hks
    rw [he] at hmem
    exact ⟨bs1, List.mem_cons_of_mem _ hmem,
      hsub.trans (bulletScan_bullets_sublist cs[i] bs)⟩
  · rw [chainScan, dif_pos h, dif_neg hh]
    dsimp only
    have hj : (cs.set i (bulletScan cs[i] bs).chain).length + k <
        (cs.set i (bulletScan cs[i] bs).chain ++ (bulletScan cs[i] bs).splits).length := by
      simp only [List.length_append, List.length_set]
      omega
    obtain ⟨bs1, hmem, hsub⟩ := chainScan_visits (i + 1)
      (cs.set i (bulletScan cs[i] bs).chain ++ (bulletScan cs[i] bs).splits)
      (bulletScan cs[i] bs).bullets
      ((cs.set i (bulletScan cs[i] bs).chain).length + k)
      (by simp only [List.length_set]; omega) hj
    have he : (cs.set i (bulletScan cs[i] bs).chain ++
        (bulletScan cs[i] bs).splits)[(cs.set i (bulletScan cs[i] bs).chain).length + k] = s := by
      rw [List.getElem_append_right (by omega)]
      simpa using hks
    rw [he] at hmem
    exact ⟨bs1, List.mem_cons_of_mem _ hmem,
      hsub.trans (bulletScan_bullets_sublist cs[i] bs)⟩

theorem c1_witness :
    (firstHitIndex [⟨0,0⟩,⟨0,1⟩,⟨0,2⟩] ⟨⟨0,1⟩⟩ = some 1 ∧ 0 < 1 ∧
      1 < ([⟨0,0⟩,⟨0,1⟩,⟨0,2⟩] : Chain).length) ∧
    chainScan 0 [[⟨0,0⟩,⟨0,1⟩,⟨0,2⟩]] [⟨⟨0,1⟩⟩] =
      { centipedes := [[⟨0,0⟩], [⟨0,2⟩]], bullets := [], hits := 1,
        trace := [([⟨0,0⟩,⟨0,1⟩,⟨0,2⟩], [⟨⟨0,1⟩⟩]), ([⟨0,2⟩], [])] } := by
  refine ⟨⟨by decide, by decide, by decide⟩, ?_⟩
  rw [(c1 [⟨0,0⟩,⟨0,1⟩,⟨0,2⟩] ⟨⟨0,1⟩⟩ [] 1 (by decide) (by decide) (by decide)).2.2.2]
  decide

theorem c2_witness :
    (firstHitIndex [⟨0,0⟩,⟨0,1⟩,⟨0,2⟩] ⟨⟨0,1⟩⟩ = some 1 ∧ 0 < 1 ∧
      1 + 1 < ([⟨0,0⟩,⟨0,1⟩,⟨0,2⟩] : Chain).length ∧
      firstHitIndex (([⟨0,0⟩,⟨0,1⟩,⟨0,2⟩] : Chain).take 1) ⟨⟨0,0⟩⟩ = some 0) ∧
    chainScan 0 [[⟨0,0⟩,⟨0,1⟩,⟨0,2⟩]] [⟨⟨0,1⟩⟩, ⟨⟨0,0⟩⟩] =
      { centipedes := [[⟨0,2⟩]], bullets := [], hits := 2,
        trace := [([⟨0,0⟩,⟨0,1⟩,⟨0,2⟩], [⟨⟨0,1⟩⟩, ⟨⟨0,0⟩⟩]), ([⟨0,2⟩], [])] } := by
  refine ⟨⟨by decide, by decide, by decide, by decide⟩, ?_⟩
  rw [(c2 [⟨0,0⟩,⟨0,1⟩,⟨0,2⟩] ⟨⟨0,1⟩⟩ ⟨⟨0,0⟩⟩ [] 1
    (by decide) (by decide) (by decide) (by decide)).2]
  decide

theorem c9_witness :
    (0 < ([[⟨0,0⟩,⟨0,1⟩,⟨0,2⟩]] : List Chain).length) ∧
    ([⟨0,2⟩] : Chain) ∈ (bulletScan ([[⟨0,0⟩,⟨0,1⟩,⟨0,2⟩]] : List Chain)[0] [⟨⟨0,1⟩⟩]).splits ∧
    ∃ bs1, (([⟨0,2⟩] : Chain), bs1) ∈
      (chainScan 0 [[⟨0,0⟩,⟨0,1⟩,⟨0,2⟩]] [⟨⟨0,1⟩⟩]).trace ∧
      bs1.Sublist [⟨⟨0,1⟩⟩] :=
  ⟨by decide, by decide,
    c9 0 [[⟨0,0⟩,⟨0,1⟩,⟨0,2⟩]] [⟨⟨0,1⟩⟩] (by decide) [⟨0,2⟩] (by decide)⟩

theorem collidePlayerCentipedesGo_count (p : Position) (cs : List Chain)
    (s : GameLifeState) :
    (collidePlayerCentipedesGo p cs s).2 =
      (cs.filter (fun c => isAtPosition c p)).length ∧
    (collidePlayerCentipedesGo p cs s).1.lives =
      s.lives - (cs.filter (fun c => isAtPosition c p)).length := by
  induction cs generalizing s with
  | nil => simp [collidePlayerCentipedesGo]
  | cons c rest ih =>
    simp only [collidePlayerCentipedesGo, List.filter_cons]
    by_cases hc : isAtPosition c p
    · simp only [hc, if_true]
      obtain ⟨ih1, ih2⟩ := ih (loseLive s)
      refine ⟨by simp [ih1], ?_⟩
      rw [ih2]
      simp only [loseLive, List.length_cons]
      push_cast
      ring
    · simp only [hc, if_false, Bool.false_eq_true]
      exact ih s

/-- C3: in the centipede-vs-starship check of one tick, a life-loss event
fires once per chain occupying the starship's cell, so two matching chains
drain two lives in a single tick. -/
theorem c3 (p : Position) (s : GameLifeState) :
    (collidePlayerCentipedes p s).2 =
      (s.centipedes.filter (fun c => isAtPosition c p)).length ∧
    (collidePlayerCentipedes p s).1.lives =
      s.lives - (s.centipedes.filter (fun c => isAtPosition c p)).length ∧
    (collidePlayerCentipedes ⟨0, 0⟩
        { currentRound := 1, currentCentipedeModuloGametickSlowdown := 5,
          score := 0, lives := 3, centipedes := [[⟨0, 0⟩], [⟨0, 0⟩]],
          hasDiedInRound := none }).2 = 2 ∧
    (collidePlayerCentipedes ⟨0, 0⟩
        { currentRound := 1, currentCentipedeModuloGametickSlowdown := 5,
          score := 0, lives := 3, centipedes := [[⟨0, 0⟩], [⟨0, 0⟩]],
          hasDiedInRound := none }).1.lives = 1 := by
  refine ⟨(collidePlayerCentipedesGo_count p s.centipedes s).1,
    (collidePlayerCentipedesGo_count p s.centipedes s).2, by decide, by decide⟩

/-- Concrete settings used by the closed scenario theorems: slowdown
parameters (5, 3, 1) as in the spec's §8 slowdown scenario. -/
def sampleSettings : CentipedeSettings :=
  { initialCentipedeModuloGametickSlowdown := 5
    centipedeSpeedIncrementRoundModuloSlowdown := 3
    centipedeSpeedIncrementAmount := 1
    initialCentipedeSize := 8
    centipedeSizeIncrementRoundModuloSlowdown := 4
    centipedeSizeIncrementAmount := 2
    pointsForCentipedeHit := 10
    pointsForMushroomKill := 1
    pointsForRoundEnd := 50
    centipedeSpawnLine := 0
    centipedeSpawnColumn := 10
    initialPlayerHealth := 3 }

/-- C4 (divergence witness): no reset of the died-this-round flag happens at
round start.  `startNextRound` leaves `hasDiedInRound` untouched for every
state, so after a death in round 1 the flag still reads `true` when round 2
ends, and `roundEndStep` takes the delay branch: the round-end score event
is not awarded even though no life was lost during round 2. -/
theorem c4 :
    (∀ (settings : CentipedeSettings) (dir : CentipedeMovingDirection)
      (s : GameLifeState),
      (startNextRound settings dir s).hasDiedInRound = s.hasDiedInRound) ∧
    (startNextRound sampleSettings CentipedeMovingDirection.cLeft
        (loseLive (startNew sampleSettings))).hasDiedInRound = some true ∧
    Option.map GameLifeState.score
        (roundEndStep sampleSettings
          (startNextRound sampleSettings CentipedeMovingDirection.cLeft
            (loseLive (startNew sampleSettings)))) =
      some (startNextRound sampleSettings CentipedeMovingDirection.cLeft
          (loseLive (startNew sampleSettings))).score := by
  exact ⟨fun _ _ _ => rfl, rfl, rfl⟩

/-- C10: the `GameLogic` constructor leaves `hasDiedInRound` unassigned
(`none` in the model) and `startNew`/`startNextRound`/`increaseScore` never
assign it, so the value read at the first RoundEnd of a fresh game is
indeterminate (`roundEndStep` yields `none`) until the first life-loss event
(`loseLive`) assigns `true`. -/
theorem c10 :
    (∀ settings : CentipedeSettings, (startNew settings).hasDiedInRound = none) ∧
    (∀ (settings : CentipedeSettings) (t : ScoreType) (s : GameLifeState),
      (increaseScore settings t s).hasDiedInRound = s.hasDiedInRound) ∧
    (∀ (settings : CentipedeSettings) (dir : CentipedeMovingDirection),
      roundEndStep settings
        (startNextRound settings dir (startNew settings)) = none) ∧
    (∀ s : GameLifeState, (loseLive s).hasDiedInRound = some true) := by
  refine ⟨fun _ => rfl, fun _ t _ => ?_, fun _ _ => rfl, fun _ => rfl⟩
  cases t <;> rfl

/-- C7: `startNextRound` recomputes and stores the centipede-path slowdown
for the round it starts (`r = currentRound + 1`) as
`initialSlowdown - (r / speedupInterval) * speedupAmount` (C++ truncating
division, which agrees with floor on the non-negative values used), and on
the spec's scenario `initialSlowdown=5, speedupInterval=3, speedupAmount=1,
round=6` the result is `3`. -/
theorem c7 (settings : CentipedeSettings) (dir : CentipedeMovingDirection)
    (s : GameLifeState) :
    (startNextRound settings dir s).currentCentipedeModuloGametickSlowdown =
      calculateCentipedeSlowdown settings (s.currentRound + 1) ∧
    (∀ r : Int, calculateCentipedeSlowdown settings r =
      settings.initialCentipedeModuloGametickSlowdown -
        (r.tdiv settings.centipedeSpeedIncrementRoundModuloSlowdown) *
          settings.centipedeSpeedIncrementAmount) ∧
    calculateCentipedeSlowdown sampleSettings 6 = 3 := by
  exact ⟨rfl, fun _ => rfl, by decide⟩

/-- C8: `startGameClock` while the clock thread already runs throws the
fatal `logic_error` without altering the state or spawning a second clock;
when not running it spawns the background tick source and succeeds. -/
theorem c8 (s : GameLogicClock) (len : Int) :
    (s.gameClockThreadRunning = true →
      startGameClock s len = (s, Except.error "Game Clock already running.")) ∧
    (s.gameClockThreadRunning = false →
      (startGameClock s len).1.gameClockThreadRunning = true ∧
      (startGameClock s len).2 = Except.ok ()) := by
  constructor <;> intro h <;> simp [startGameClock, h]

theorem c8_witness :
    (startGameClock { gameClockThreadRunning := true } 50 =
      ({ gameClockThreadRunning := true }, Except.error "Game Clock already running.")) ∧
    ((startGameClock { gameClockThreadRunning := false } 50).1.gameClockThreadRunning = true ∧
      (startGameClock { gameClockThreadRunning := false } 50).2 = Except.ok ()) :=
  ⟨(c8 { gameClockThreadRunning := true } 50).1 rfl,
    (c8 { gameClockThreadRunning := false } 50).2 rfl⟩

/-- C6: a path is due exactly when `tick mod slowdown = 0` (so slowdown 1 is
due on every tick), and the global collision pass of a tick executes, and
its two collision checks appear in the tick's step sequence, if and only if
the player path or the centipede path is due that tick (logical OR). -/
theorem c6 :
    (∀ t m : Nat, executePathForGametick t m = decide (t % m = 0)) ∧
    (∀ t : Nat, executePathForGametick t 1 = true) ∧
    (∀ t sl cl : Nat, handleGlobalCollisionsExecutes t sl cl =
      (executePathForGametick t sl || executePathForGametick t cl)) ∧
    (∀ t sl cl : Nat,
      (gameTickTrace t sl cl).contains TickEvent.collideBulletsCentipedesEvent =
        (executePathForGametick t sl || executePathForGametick t cl) ∧
      (gameTickTrace t sl cl).contains TickEvent.collidePlayerCentipedesEvent =
        (executePathForGametick t sl || executePathForGametick t cl)) := by
  refine ⟨?_, ?_, ?_, ?_⟩
  · intro t m
    by_cases h : t % m = 0 <;> simp [executePathForGametick, h]
  · intro t
    simp [executePathForGametick, Nat.mod_one]
  · intro t sl cl
    rcases h1 : executePathForGametick t sl <;>
      rcases h2 : executePathForGametick t cl <;>
      simp [handleGlobalCollisionsExecutes, h1, h2]
  · intro t sl cl
    rcases h1 : executePathForGametick t sl <;>
      rcases h2 : executePathForGametick t cl <;>
      simp [gameTickTrace, handleGlobalCollisionsExecutes, h1, h2]

/-- C5 refutation at a concrete tick: in the step sequence of tick 0 (both
paths due), a collision evaluation (`collideBulletsMushrooms`, index 2)
precedes a movement step (`moveStarshipIfNecessary`, index 3), so it is not
the case that all movement completes before any collision evaluation. -/
theorem c5_counterexample :
    ∃ i j : Fin (gameTickTrace 0 1 1).length, (i : Nat) < (j : Nat) ∧
      isCollisionEvaluation ((gameTickTrace 0 1 1).get i) = true ∧
      isMovement ((gameTickTrace 0 1 1).get j) = true := by
  decide

/-- C5 (amended): within every tick, all movement (bullets, starship,
centipedes) completes before the global collision pass (bullets-vs-
centipedes and centipedes-vs-starship), and that pass completes before
rendering; the bullet-vs-mushroom collision check, however, runs inside the
player path after bullet movement and before starship movement. -/
theorem c5_amended (t sl cl : Nat) :
    (∀ i j : Fin (gameTickTrace t sl cl).length,
      isMovement ((gameTickTrace t sl cl).get i) = true →
      isGlobalCollisionEvaluation ((gameTickTrace t sl cl).get j) = true →
      (i : Nat) < (j : Nat)) ∧
    (∀ i j : Fin (gameTickTrace t sl cl).length,
      isGlobalCollisionEvaluation ((gameTickTrace t sl cl).get i) = true →
      (gameTickTrace t sl cl).get j = TickEvent.printGameEvent →
      (i : Nat) < (j : Nat)) := by
  rcases h1 : executePathForGametick t sl <;> rcases h2 : executePathForGametick t cl
  · have e : gameTickTrace t sl cl = [TickEvent.printGameEvent] := by
      simp [gameTickTrace, handleGlobalCollisionsExecutes, h1, h2]
    rw [e]
    decide
  · have e : gameTickTrace t sl cl =
        [TickEvent.moveCentipedesEvent, TickEvent.collideBulletsCentipedesEvent,
         TickEvent.collidePlayerCentipedesEvent, TickEvent.printGameEvent] := by
      simp [gameTickTrace, handleGlobalCollisionsExecutes, h1, h2]
    rw [e]
    decide
  · have e : gameTickTrace t sl cl =
        [TickEvent.spawnBulletIfNecessary, TickEvent.moveBullets,
         TickEvent.collideBulletsMushroomsEvent, TickEvent.moveStarshipIfNecessary,
         TickEvent.collideBulletsCentipedesEvent, TickEvent.collidePlayerCentipedesEvent,
         TickEvent.printGameEvent] := by
      simp [gameTickTrace, handleGlobalCollisionsExecutes, h1, h2]
    rw [e]
    decide
  · have e : gameTickTrace t sl cl =
        [TickEvent.spawnBulletIfNecessary, TickEvent.moveBullets,
         TickEvent.collideBulletsMushroomsEvent, TickEvent.moveStarshipIfNecessary,
         TickEvent.moveCentipedesEvent, TickEvent.collideBulletsCentipedesEvent,
         TickEvent.collidePlayerCentipedesEvent, TickEvent.printGameEvent] := by
      simp [gameTickTrace, handleGlobalCollisionsExecutes, h1, h2]
    rw [e]
    decide

theorem c5_amended_witness :
    isMovement ((gameTickTrace 0 1 1).get ⟨1, by decide⟩) = true ∧
    isGlobalCollisionEvaluation ((gameTickTrace 0 1 1).get ⟨5, by decide⟩) = true ∧
    (1 : Nat) < 5 :=
  ⟨by decide, by decide,
    (c5_amended 0 1 1).1 ⟨1, by decide⟩ ⟨5, by decide⟩ (by decide) (by decide)⟩
